import Mathlib

/-!
Shallow embedding of `src/pagination_api/paginations.py`
(Lazarus-org/dj-pagination-api).

The module defines three DRF pagination classes.  Each one overrides the
size-resolution method (`get_limit` for limit/offset, `get_page_size` for
page-number and cursor) with the same shape:

  if self.<param> and request.query_params.get(self.<param>):
      try:
          value = request.query_params.get(self.<param>)
          if value.isalpha():
              pass
          elif int(value) > 0:
              return <clamped int(value)>
      except (KeyError, ValueError):
          pass
  return self.<default>

We embed the Python-level string operations (`str.isalpha`, `int(str)`,
string truthiness) over ASCII text, query parameters as a partial map
`String → Option String` (the result of `QueryDict.get`), and the
`try/except` as an `Except PyExc` computation whose caught errors fall
back to the default.  Python 3 integers are unbounded, so `int(str)` is
`Option Int` with failure only for malformed text, never for magnitude.
-/

/-- Python string truthiness of an optional string: `None` and the empty
string are falsy, every other string is truthy. -/
def optTruthy : Option String → Bool
  | none => false
  | some s => !s.isEmpty

/-- ASCII whitespace stripped by Python's `int(str)` conversion
(space, tab, newline, carriage return, vertical tab, form feed). -/
def isPyWhitespace (c : Char) : Bool :=
  c == ' ' || c == '\t' || c == '\n' || c == '\r' || c == '\x0b' || c == '\x0c'

/-- Python `str.isalpha()`: true iff the string is nonempty and every
character is alphabetic (restricted here to ASCII letters). -/
def pyIsAlpha (s : String) : Bool :=
  !s.data.isEmpty && s.data.all Char.isAlpha

/-- Strip leading and trailing whitespace, as Python `int(str)` does
before parsing the numeric body. -/
def stripWs (cs : List Char) : List Char :=
  ((cs.dropWhile isPyWhitespace).reverse.dropWhile isPyWhitespace).reverse

/-- Continue parsing a Python decimal digit run after its first digit:
further digits may be separated by single underscores (`4_2`), but an
underscore must sit between two digits. -/
def digitTail (acc : Nat) : List Char → Option Nat
  | [] => some acc
  | '_' :: c :: rest =>
      if c.isDigit then digitTail (acc * 10 + (c.toNat - 48)) rest else none
  | c :: rest =>
      if c.isDigit then digitTail (acc * 10 + (c.toNat - 48)) rest else none

/-- Parse a nonempty Python decimal digit run (with optional underscore
separators) to its value; `none` on any malformed run. -/
def digitsVal : List Char → Option Nat
  | [] => none
  | c :: rest => if c.isDigit then digitTail (c.toNat - 48) rest else none

/-- Python 3 `int(str)` in base 10 over ASCII text: strip surrounding
whitespace, allow one optional sign, then a digit run with underscore
separators.  Python integers are arbitrary precision, so success never
depends on magnitude; `none` models `ValueError`. -/
def pyParseInt (s : String) : Option Int :=
  match stripWs s.data with
  | '+' :: rest => (digitsVal rest).map Int.ofNat
  | '-' :: rest => (digitsVal rest).map (fun n => -(Int.ofNat n : Int))
  | cs => (digitsVal cs).map Int.ofNat

/-- The exception classes named by the `except (KeyError, ValueError)`
handler in every resolver. -/
inductive PyExc where
  | keyError : PyExc
  | valueError : PyExc
deriving DecidableEq, Repr

/-- `int(value)` as a fallible Python expression: a malformed string
raises `ValueError`. -/
def pyIntExc (s : String) : Except PyExc Int :=
  match pyParseInt s with
  | some n => Except.ok n
  | none => Except.error PyExc.valueError

/-- Configuration attributes of `DefaultLimitOffsetPagination`
(`min_limit = 1`, `max_limit = 100`, `default_limit = 10`; the inherited
DRF attribute `limit_query_param` defaults to the string `limit` and may
be set to `None` to disable client overrides). -/
structure DefaultLimitOffsetPagination where
  limit_query_param : Option String := some "limit"
  min_limit : Int := 1
  max_limit : Int := 100
  default_limit : Int := 10
deriving Repr

/-- The body of the `try:` block of `get_limit` (lines 32-40): skip
pure-alphabetic values, otherwise evaluate `int(limit_value)` (twice, as
the source does) and return the clamped value when positive.  `ok none`
is falling through to the default; `error` is a raised exception. -/
def DefaultLimitOffsetPagination.get_limit_try
    (self : DefaultLimitOffsetPagination) (limit_value : String) :
    Except PyExc (Option Int) := do
  if pyIsAlpha limit_value then
    return none
  else
    let n ← pyIntExc limit_value
    if n > 0 then
      let n2 ← pyIntExc limit_value
      return some (min (max n2 self.min_limit) self.max_limit)
    else
      return none

/-- `DefaultLimitOffsetPagination.get_limit` (lines 20-45): guard on the
truthiness of the query-param name and of the fetched raw value, run the
`try:` body, catch `KeyError`/`ValueError`, and default otherwise. -/
def DefaultLimitOffsetPagination.get_limit
    (self : DefaultLimitOffsetPagination)
    (query_params : String → Option String) : Int :=
  match self.limit_query_param with
  | some p =>
    if !p.isEmpty && optTruthy (query_params p) then
      match query_params p with
      | some limit_value =>
        match self.get_limit_try limit_value with
        | Except.ok (some r) => r
        | Except.ok none => self.default_limit
        | Except.error PyExc.keyError => self.default_limit
        | Except.error PyExc.valueError => self.default_limit
      | none => self.default_limit
    else
      self.default_limit
  | none => self.default_limit

/-- Configuration attributes of `DefaultPageNumberPagination`
(`page_size = 10`, `page_size_query_param = page_size`,
`max_page_size = 100`). -/
structure DefaultPageNumberPagination where
  page_size : Int := 10
  page_size_query_param : Option String := some "page_size"
  max_page_size : Int := 100
deriving Repr

/-- The body of the `try:` block of
`DefaultPageNumberPagination.get_page_size` (lines 75-83): skip
pure-alphabetic values, otherwise return `min(int(value), max_page_size)`
when `int(value)` is positive. -/
def DefaultPageNumberPagination.get_page_size_try
    (self : DefaultPageNumberPagination) (page_size_value : String) :
    Except PyExc (Option Int) := do
  if pyIsAlpha page_size_value then
    return none
  else
    let n ← pyIntExc page_size_value
    if n > 0 then
      let n2 ← pyIntExc page_size_value
      return some (min n2 self.max_page_size)
    else
      return none

/-- `DefaultPageNumberPagination.get_page_size` (lines 63-88). -/
def DefaultPageNumberPagination.get_page_size
    (self : DefaultPageNumberPagination)
    (query_params : String → Option String) : Int :=
  match self.page_size_query_param with
  | some p =>
    if !p.isEmpty && optTruthy (query_params p) then
      match query_params p with
      | some page_size_value =>
        match self.get_page_size_try page_size_value with
        | Except.ok (some r) => r
        | Except.ok none => self.page_size
        | Except.error PyExc.keyError => self.page_size
        | Except.error PyExc.valueError => self.page_size
      | none => self.page_size
    else
      self.page_size
  | none => self.page_size

/-- Configuration attributes of `DefaultCursorPagination`
(`page_size = 10`, `page_size_query_param = page_size`,
`max_page_size = 100`, `ordering = -id`). -/
structure DefaultCursorPagination where
  page_size : Int := 10
  page_size_query_param : Option String := some "page_size"
  max_page_size : Int := 100
  ordering : String := "-id"
deriving Repr

/-- The body of the `try:` block of
`DefaultCursorPagination.get_page_size` (lines 121-129). -/
def DefaultCursorPagination.get_page_size_try
    (self : DefaultCursorPagination) (page_size_value : String) :
    Except PyExc (Option Int) := do
  if pyIsAlpha page_size_value then
    return none
  else
    let n ← pyIntExc page_size_value
    if n > 0 then
      let n2 ← pyIntExc page_size_value
      return some (min n2 self.max_page_size)
    else
      return none

/-- `DefaultCursorPagination.get_page_size` (lines 109-134). -/
def DefaultCursorPagination.get_page_size
    (self : DefaultCursorPagination)
    (query_params : String → Option String) : Int :=
  match self.page_size_query_param with
  | some p =>
    if !p.isEmpty && optTruthy (query_params p) then
      match query_params p with
      | some page_size_value =>
        match self.get_page_size_try page_size_value with
        | Except.ok (some r) => r
        | Except.ok none => self.page_size
        | Except.error PyExc.keyError => self.page_size
        | Except.error PyExc.valueError => self.page_size
      | none => self.page_size
    else
      self.page_size
  | none => self.page_size

/-- A query-parameter mapping holding a single key/value pair. -/
def singleParam (k v : String) : String → Option String :=
  fun p => if p = k then some v else none

example : pyParseInt "42" = some 42 := by decide
example : pyParseInt " 42 " = some 42 := by decide
example : pyParseInt "+42" = some 42 := by decide
example : pyParseInt "4_2" = some 42 := by decide
example : pyParseInt "-5" = some (-5) := by decide
example : pyParseInt "0.5" = none := by decide
example : pyParseInt "abc" = none := by decide
example : pyParseInt "" = none := by decide
example : pyParseInt "4__2" = none := by decide
example : pyParseInt "4_" = none := by decide
example : pyParseInt "_4" = none := by decide
example : pyIsAlpha "abc" = true := by decide
example : pyIsAlpha "a1" = false := by decide

example :
    DefaultLimitOffsetPagination.get_limit {} (singleParam "limit" "50") = 50 := by
  decide
example :
    DefaultLimitOffsetPagination.get_limit {} (singleParam "limit" "9999") = 100 := by
  decide
example :
    DefaultLimitOffsetPagination.get_limit {} (singleParam "limit" "0") = 10 := by
  decide
example :
    DefaultPageNumberPagination.get_page_size {} (fun _ => none) = 10 := by
  decide

theorem uint32_le_iff_toNat (a b : UInt32) : a ≤ b ↔ a.toNat ≤ b.toNat := Iff.rfl

theorem isAlpha_not_isDigit (c : Char) (h : c.isAlpha = true) : c.isDigit = false := by
  cases hd : c.isDigit with
  | false => rfl
  | true =>
    exfalso
    simp only [Char.isAlpha, Char.isUpper, Char.isLower, Char.isDigit, Bool.or_eq_true,
      Bool.and_eq_true, decide_eq_true_eq, uint32_le_iff_toNat] at h hd
    have h48 : (48 : UInt32).toNat = 48 := rfl
    have h57 : (57 : UInt32).toNat = 57 := rfl
    have h65 : (65 : UInt32).toNat = 65 := rfl
    have h90 : (90 : UInt32).toNat = 90 := rfl
    have h97 : (97 : UInt32).toNat = 97 := rfl
    have h122 : (122 : UInt32).toNat = 122 := rfl
    rw [h65, h90, h97, h122] at h
    rw [h48, h57] at hd
    omega

theorem isAlpha_not_ws (c : Char) (h : c.isAlpha = true) : isPyWhitespace c = false := by
  cases hw : isPyWhitespace c with
  | false => rfl
  | true =>
    exfalso
    simp only [isPyWhitespace, Bool.or_eq_true, beq_iff_eq, or_assoc] at hw
    rcases hw with h1 | h1 | h1 | h1 | h1 | h1 <;> subst h1 <;> simp at h

theorem dropWhile_eq_self_of_none (p : Char → Bool) (l : List Char)
    (h : ∀ c ∈ l, p c = false) : l.dropWhile p = l := by
  cases l with
  | nil => rfl
  | cons a t => simp [List.dropWhile, h a (List.mem_cons_self a t)]

theorem stripWs_eq_self (l : List Char) (h : ∀ c ∈ l, isPyWhitespace c = false) :
    stripWs l = l := by
  unfold stripWs
  rw [dropWhile_eq_self_of_none _ _ h]
  rw [dropWhile_eq_self_of_none _ _ (fun c hc => h c (List.mem_reverse.mp hc))]
  exact List.reverse_reverse l

theorem digitsVal_alpha_head (c : Char) (rest : List Char) (h : c.isAlpha = true) :
    digitsVal (c :: rest) = none := by
  simp [digitsVal, isAlpha_not_isDigit c h]

theorem pyIsAlpha_parse_none (s : String) (h : pyIsAlpha s = true) :
    pyParseInt s = none := by
  have hsplit : (!s.data.isEmpty) = true ∧ s.data.all Char.isAlpha = true := by
    simpa [pyIsAlpha, Bool.and_eq_true] using h
  obtain ⟨hne, hall⟩ := hsplit
  have hall2 : ∀ c ∈ s.data, c.isAlpha = true := List.all_eq_true.mp hall
  have hstrip : stripWs s.data = s.data :=
    stripWs_eq_self _ (fun c hc => isAlpha_not_ws c (hall2 c hc))
  unfold pyParseInt
  rw [hstrip]
  split
  · rename_i rest hplus
    have : ('+' : Char).isAlpha = true := hall2 _ (by rw [hplus]; exact List.mem_cons_self _ _)
    simp at this
  · rename_i rest hminus
    have : ('-' : Char).isAlpha = true := hall2 _ (by rw [hminus]; exact List.mem_cons_self _ _)
    simp at this
  · cases hd : s.data with
    | nil => rfl
    | cons c rest =>
      have hc : c.isAlpha = true := hall2 c (by rw [hd]; exact List.mem_cons_self _ _)
      rw [digitsVal_alpha_head c rest hc]
      rfl

theorem pyParseInt_empty : pyParseInt "" = none := rfl

theorem pyParseInt_nonempty (s : String) (n : Int) (h : pyParseInt s = some n) :
    s.isEmpty = false := by
  cases he : s.isEmpty with
  | false => rfl
  | true =>
    have : s = "" := (String.isEmpty_iff s).mp he
    rw [this, pyParseInt_empty] at h
    exact Option.noConfusion h

theorem exceptPure (α : Type) (a : α) : (pure a : Except PyExc α) = Except.ok a := rfl

theorem exceptBindOk (α β : Type) (a : α) (f : α → Except PyExc β) :
    (Except.ok a >>= f) = f a := rfl

theorem exceptBindError (α β : Type) (e : PyExc) (f : α → Except PyExc β) :
    ((Except.error e : Except PyExc α) >>= f) = Except.error e := rfl

theorem get_limit_try_alpha (self : DefaultLimitOffsetPagination) (v : String)
    (h : pyIsAlpha v = true) : self.get_limit_try v = Except.ok none := by
  simp [DefaultLimitOffsetPagination.get_limit_try, h, exceptPure]

theorem get_limit_try_parsefail (self : DefaultLimitOffsetPagination) (v : String)
    (ha : pyIsAlpha v = false) (h : pyParseInt v = none) :
    self.get_limit_try v = Except.error PyExc.valueError := by
  simp [DefaultLimitOffsetPagination.get_limit_try, ha, pyIntExc, h, exceptBindError]

theorem get_limit_try_nonpos (self : DefaultLimitOffsetPagination) (v : String) (n : Int)
    (ha : pyIsAlpha v = false) (h : pyParseInt v = some n) (hn : n ≤ 0) :
    self.get_limit_try v = Except.ok none := by
  simp [DefaultLimitOffsetPagination.get_limit_try, ha, pyIntExc, h, exceptBindOk,
    exceptPure, not_lt.mpr hn]

theorem get_limit_try_pos (self : DefaultLimitOffsetPagination) (v : String) (n : Int)
    (ha : pyIsAlpha v = false) (h : pyParseInt v = some n) (hn : 0 < n) :
    self.get_limit_try v =
      Except.ok (some (min (max n self.min_limit) self.max_limit)) := by
  simp [DefaultLimitOffsetPagination.get_limit_try, ha, pyIntExc, h, exceptBindOk,
    exceptPure, hn]

theorem get_limit_none_param (self : DefaultLimitOffsetPagination)
    (query_params : String → Option String) (hp : self.limit_query_param = none) :
    self.get_limit query_params = self.default_limit := by
  simp [DefaultLimitOffsetPagination.get_limit, hp]

theorem get_limit_empty_param (self : DefaultLimitOffsetPagination)
    (query_params : String → Option String) (p : String)
    (hp : self.limit_query_param = some p) (hpe : p.isEmpty = true) :
    self.get_limit query_params = self.default_limit := by
  simp [DefaultLimitOffsetPagination.get_limit, hp, hpe]

theorem get_limit_absent (self : DefaultLimitOffsetPagination)
    (query_params : String → Option String) (p : String)
    (hp : self.limit_query_param = some p) (hv : query_params p = none) :
    self.get_limit query_params = self.default_limit := by
  simp [DefaultLimitOffsetPagination.get_limit, hp, hv, optTruthy]

theorem get_limit_empty_value (self : DefaultLimitOffsetPagination)
    (query_params : String → Option String) (p v : String)
    (hp : self.limit_query_param = some p) (hv : query_params p = some v)
    (hve : v.isEmpty = true) :
    self.get_limit query_params = self.default_limit := by
  simp [DefaultLimitOffsetPagination.get_limit, hp, hv, optTruthy, hve]

theorem get_limit_found (self : DefaultLimitOffsetPagination)
    (query_params : String → Option String) (p v : String)
    (hp : self.limit_query_param = some p) (hpne : p.isEmpty = false)
    (hv : query_params p = some v) (hvne : v.isEmpty = false) :
    self.get_limit query_params =
      match self.get_limit_try v with
      | Except.ok (some r) => r
      | Except.ok none => self.default_limit
      | Except.error _ => self.default_limit := by
  simp only [DefaultLimitOffsetPagination.get_limit, hp, hv, optTruthy, hpne, hvne,
    Bool.not_false, Bool.and_self, if_true]
  cases self.get_limit_try v with
  | ok o => cases o <;> rfl
  | error e => cases e <;> rfl

theorem get_page_size_try_alpha (self : DefaultPageNumberPagination) (v : String)
    (h : pyIsAlpha v = true) : self.get_page_size_try v = Except.ok none := by
  simp [DefaultPageNumberPagination.get_page_size_try, h, exceptPure]

theorem get_page_size_try_parsefail (self : DefaultPageNumberPagination) (v : String)
    (ha : pyIsAlpha v = false) (h : pyParseInt v = none) :
    self.get_page_size_try v = Except.error PyExc.valueError := by
  simp [DefaultPageNumberPagination.get_page_size_try, ha, pyIntExc, h, exceptBindError]

theorem get_page_size_try_nonpos (self : DefaultPageNumberPagination) (v : String)
    (n : Int) (ha : pyIsAlpha v = false) (h : pyParseInt v = some n) (hn : n ≤ 0) :
    self.get_page_size_try v = Except.ok none := by
  simp [DefaultPageNumberPagination.get_page_size_try, ha, pyIntExc, h, exceptBindOk,
    exceptPure, not_lt.mpr hn]

theorem get_page_size_try_pos (self : DefaultPageNumberPagination) (v : String) (n : Int)
    (ha : pyIsAlpha v = false) (h : pyParseInt v = some n) (hn : 0 < n) :
    self.get_page_size_try v = Except.ok (some (min n self.max_page_size)) := by
  simp [DefaultPageNumberPagination.get_page_size_try, ha, pyIntExc, h, exceptBindOk,
    exceptPure, hn]

theorem get_page_size_none_param (self : DefaultPageNumberPagination)
    (query_params : String → Option String) (hp : self.page_size_query_param = none) :
    self.get_page_size query_params = self.page_size := by
  simp [DefaultPageNumberPagination.get_page_size, hp]

theorem get_page_size_empty_param (self : DefaultPageNumberPagination)
    (query_params : String → Option String) (p : String)
    (hp : self.page_size_query_param = some p) (hpe : p.isEmpty = true) :
    self.get_page_size query_params = self.page_size := by
  simp [DefaultPageNumberPagination.get_page_size, hp, hpe]

theorem get_page_size_absent (self : DefaultPageNumberPagination)
    (query_params : String → Option String) (p : String)
    (hp : self.page_size_query_param = some p) (hv : query_params p = none) :
    self.get_page_size query_params = self.page_size := by
  simp [DefaultPageNumberPagination.get_page_size, hp, hv, optTruthy]

theorem get_page_size_empty_value (self : DefaultPageNumberPagination)
    (query_params : String → Option String) (p v : String)
    (hp : self.page_size_query_param = some p) (hv : query_params p = some v)
    (hve : v.isEmpty = true) :
    self.get_page_size query_params = self.page_size := by
  simp [DefaultPageNumberPagination.get_page_size, hp, hv, optTruthy, hve]

theorem get_page_size_found (self : DefaultPageNumberPagination)
    (query_params : String → Option String) (p v : String)
    (hp : self.page_size_query_param = some p) (hpne : p.isEmpty = false)
    (hv : query_params p = some v) (hvne : v.isEmpty = false) :
    self.get_page_size query_params =
      match self.get_page_size_try v with
      | Except.ok (some r) => r
      | Except.ok none => self.page_size
      | Except.error _ => self.page_size := by
  simp only [DefaultPageNumberPagination.get_page_size, hp, hv, optTruthy, hpne, hvne,
    Bool.not_false, Bool.and_self, if_true]
  cases self.get_page_size_try v with
  | ok o => cases o <;> rfl
  | error e => cases e <;> rfl

theorem cursor_page_size_bridge (self : DefaultCursorPagination)
    (query_params : String → Option String) :
    self.get_page_size query_params =
      DefaultPageNumberPagination.get_page_size
        { page_size := self.page_size
          page_size_query_param := self.page_size_query_param
          max_page_size := self.max_page_size } query_params := rfl

theorem cursor_try_bridge (self : DefaultCursorPagination) (v : String) :
    self.get_page_size_try v =
      DefaultPageNumberPagination.get_page_size_try
        { page_size := self.page_size
          page_size_query_param := self.page_size_query_param
          max_page_size := self.max_page_size } v := rfl

theorem get_limit_of_pos (self : DefaultLimitOffsetPagination)
    (query_params : String → Option String) (p v : String) (n : Int)
    (hp : self.limit_query_param = some p) (hpne : p.isEmpty = false)
    (hv : query_params p = some v) (hn : pyParseInt v = some n) (hpos : 0 < n) :
    self.get_limit query_params = min (max n self.min_limit) self.max_limit := by
  have hvne := pyParseInt_nonempty v n hn
  have halpha : pyIsAlpha v = false := by
    cases ha : pyIsAlpha v with
    | false => rfl
    | true => rw [pyIsAlpha_parse_none v ha] at hn; exact Option.noConfusion hn
  rw [get_limit_found self query_params p v hp hpne hv hvne,
    get_limit_try_pos self v n halpha hn hpos]

theorem get_limit_default_of_nonpos (self : DefaultLimitOffsetPagination)
    (query_params : String → Option String) (p v : String) (n : Int)
    (hp : self.limit_query_param = some p) (hpne : p.isEmpty = false)
    (hv : query_params p = some v) (hn : pyParseInt v = some n) (hnp : n ≤ 0) :
    self.get_limit query_params = self.default_limit := by
  have hvne := pyParseInt_nonempty v n hn
  have hfound := get_limit_found self query_params p v hp hpne hv hvne
  cases ha : pyIsAlpha v with
  | true => rw [hfound, get_limit_try_alpha self v ha]
  | false => rw [hfound, get_limit_try_nonpos self v n ha hn hnp]

theorem get_limit_default_of_invalid (self : DefaultLimitOffsetPagination)
    (query_params : String → Option String) (p v : String)
    (hp : self.limit_query_param = some p) (hpne : p.isEmpty = false)
    (hv : query_params p = some v) (hvne : v.isEmpty = false)
    (hbad : pyParseInt v = none) :
    self.get_limit query_params = self.default_limit := by
  have hfound := get_limit_found self query_params p v hp hpne hv hvne
  cases ha : pyIsAlpha v with
  | true => rw [hfound, get_limit_try_alpha self v ha]
  | false => rw [hfound, get_limit_try_parsefail self v ha hbad]

theorem get_page_size_of_pos (self : DefaultPageNumberPagination)
    (query_params : String → Option String) (p v : String) (n : Int)
    (hp : self.page_size_query_param = some p) (hpne : p.isEmpty = false)
    (hv : query_params p = some v) (hn : pyParseInt v = some n) (hpos : 0 < n) :
    self.get_page_size query_params = min n self.max_page_size := by
  have hvne := pyParseInt_nonempty v n hn
  have halpha : pyIsAlpha v = false := by
    cases ha : pyIsAlpha v with
    | false => rfl
    | true => rw [pyIsAlpha_parse_none v ha] at hn; exact Option.noConfusion hn
  rw [get_page_size_found self query_params p v hp hpne hv hvne,
    get_page_size_try_pos self v n halpha hn hpos]

theorem get_page_size_default_of_nonpos (self : DefaultPageNumberPagination)
    (query_params : String → Option String) (p v : String) (n : Int)
    (hp : self.page_size_query_param = some p) (hpne : p.isEmpty = false)
    (hv : query_params p = some v) (hn : pyParseInt v = some n) (hnp : n ≤ 0) :
    self.get_page_size query_params = self.page_size := by
  have hvne := pyParseInt_nonempty v n hn
  have hfound := get_page_size_found self query_params p v hp hpne hv hvne
  cases ha : pyIsAlpha v with
  | true => rw [hfound, get_page_size_try_alpha self v ha]
  | false => rw [hfound, get_page_size_try_nonpos self v n ha hn hnp]

theorem get_page_size_default_of_invalid (self : DefaultPageNumberPagination)
    (query_params : String → Option String) (p v : String)
    (hp : self.page_size_query_param = some p) (hpne : p.isEmpty = false)
    (hv : query_params p = some v) (hvne : v.isEmpty = false)
    (hbad : pyParseInt v = none) :
    self.get_page_size query_params = self.page_size := by
  have hfound := get_page_size_found self query_params p v hp hpne hv hvne
  cases ha : pyIsAlpha v with
  | true => rw [hfound, get_page_size_try_alpha self v ha]
  | false => rw [hfound, get_page_size_try_parsefail self v ha hbad]

theorem get_limit_try_cases (self : DefaultLimitOffsetPagination) (v : String) :
    self.get_limit_try v = Except.ok none ∨
    self.get_limit_try v = Except.error PyExc.valueError ∨
    ∃ n : Int, 0 < n ∧
      self.get_limit_try v =
        Except.ok (some (min (max n self.min_limit) self.max_limit)) := by
  cases ha : pyIsAlpha v with
  | true => exact Or.inl (get_limit_try_alpha self v ha)
  | false =>
    cases hn : pyParseInt v with
    | none => exact Or.inr (Or.inl (get_limit_try_parsefail self v ha hn))
    | some n =>
      by_cases hpos : 0 < n
      · exact Or.inr (Or.inr ⟨n, hpos, get_limit_try_pos self v n ha hn hpos⟩)
      · exact Or.inl (get_limit_try_nonpos self v n ha hn (not_lt.mp hpos))

theorem get_page_size_try_cases (self : DefaultPageNumberPagination) (v : String) :
    self.get_page_size_try v = Except.ok none ∨
    self.get_page_size_try v = Except.error PyExc.valueError ∨
    ∃ n : Int, 0 < n ∧
      self.get_page_size_try v = Except.ok (some (min n self.max_page_size)) := by
  cases ha : pyIsAlpha v with
  | true => exact Or.inl (get_page_size_try_alpha self v ha)
  | false =>
    cases hn : pyParseInt v with
    | none => exact Or.inr (Or.inl (get_page_size_try_parsefail self v ha hn))
    | some n =>
      by_cases hpos : 0 < n
      · exact Or.inr (Or.inr ⟨n, hpos, get_page_size_try_pos self v n ha hn hpos⟩)
      · exact Or.inl (get_page_size_try_nonpos self v n ha hn (not_lt.mp hpos))

theorem get_limit_cases (self : DefaultLimitOffsetPagination)
    (query_params : String → Option String) :
    self.get_limit query_params = self.default_limit ∨
    ∃ n : Int, 0 < n ∧
      self.get_limit query_params = min (max n self.min_limit) self.max_limit := by
  cases hp : self.limit_query_param with
  | none => exact Or.inl (get_limit_none_param self query_params hp)
  | some p =>
    cases hpe : p.isEmpty with
    | true => exact Or.inl (get_limit_empty_param self query_params p hp hpe)
    | false =>
      cases hv : query_params p with
      | none => exact Or.inl (get_limit_absent self query_params p hp hv)
      | some v =>
        cases hve : v.isEmpty with
        | true => exact Or.inl (get_limit_empty_value self query_params p v hp hv hve)
        | false =>
          have hfound := get_limit_found self query_params p v hp hpe hv hve
          rcases get_limit_try_cases self v with h | h | ⟨n, hpos, h⟩
          · rw [hfound, h]; exact Or.inl rfl
          · rw [hfound, h]; exact Or.inl rfl
          · rw [hfound, h]; exact Or.inr ⟨n, hpos, rfl⟩

theorem get_page_size_cases (self : DefaultPageNumberPagination)
    (query_params : String → Option String) :
    self.get_page_size query_params = self.page_size ∨
    ∃ n : Int, 0 < n ∧
      self.get_page_size query_params = min n self.max_page_size := by
  cases hp : self.page_size_query_param with
  | none => exact Or.inl (get_page_size_none_param self query_params hp)
  | some p =>
    cases hpe : p.isEmpty with
    | true => exact Or.inl (get_page_size_empty_param self query_params p hp hpe)
    | false =>
      cases hv : query_params p with
      | none => exact Or.inl (get_page_size_absent self query_params p hp hv)
      | some v =>
        cases hve : v.isEmpty with
        | true => exact Or.inl (get_page_size_empty_value self query_params p v hp hv hve)
        | false =>
          have hfound := get_page_size_found self query_params p v hp hpe hv hve
          rcases get_page_size_try_cases self v with h | h | ⟨n, hpos, h⟩
          · rw [hfound, h]; exact Or.inl rfl
          · rw [hfound, h]; exact Or.inl rfl
          · rw [hfound, h]; exact Or.inr ⟨n, hpos, rfl⟩

theorem clamp_between (n lo hi : Int) (h : lo ≤ hi) :
    lo ≤ min (max n lo) hi ∧ min (max n lo) hi ≤ hi :=
  ⟨le_min (le_max_right n lo) h, min_le_right _ _⟩

theorem upper_clamp_between (n hi : Int) (hn : 0 < n) (hhi : 1 ≤ hi) :
    1 ≤ min n hi ∧ min n hi ≤ hi :=
  ⟨le_min hn hhi, min_le_right _ _⟩

/-- C1: for every request input, under the policy invariant
`minValue ≤ defaultValue ≤ maxValue` (with effective floor 1 for the
page-size strategies), `DefaultLimitOffsetPagination.get_limit` lands in
`[min_limit, max_limit]` and both `get_page_size` resolvers land in
`[1, max_page_size]`. -/
theorem claim_C1
    (lo : DefaultLimitOffsetPagination) (pn : DefaultPageNumberPagination)
    (cu : DefaultCursorPagination) (query_params : String → Option String)
    (hlo1 : lo.min_limit ≤ lo.default_limit) (hlo2 : lo.default_limit ≤ lo.max_limit)
    (hpn1 : 1 ≤ pn.page_size) (hpn2 : pn.page_size ≤ pn.max_page_size)
    (hcu1 : 1 ≤ cu.page_size) (hcu2 : cu.page_size ≤ cu.max_page_size) :
    (lo.min_limit ≤ lo.get_limit query_params ∧
      lo.get_limit query_params ≤ lo.max_limit) ∧
    (1 ≤ pn.get_page_size query_params ∧
      pn.get_page_size query_params ≤ pn.max_page_size) ∧
    (1 ≤ cu.get_page_size query_params ∧
      cu.get_page_size query_params ≤ cu.max_page_size) := by
  refine ⟨?_, ?_, ?_⟩
  · rcases get_limit_cases lo query_params with h | ⟨n, hpos, h⟩
    · rw [h]; exact ⟨hlo1, hlo2⟩
    · rw [h]; exact clamp_between n lo.min_limit lo.max_limit (le_trans hlo1 hlo2)
  · rcases get_page_size_cases pn query_params with h | ⟨n, hpos, h⟩
    · rw [h]; exact ⟨hpn1, hpn2⟩
    · rw [h]; exact upper_clamp_between n pn.max_page_size hpos (le_trans hpn1 hpn2)
  · rw [cursor_page_size_bridge cu query_params]
    rcases get_page_size_cases
        { page_size := cu.page_size, page_size_query_param := cu.page_size_query_param,
          max_page_size := cu.max_page_size } query_params with h | ⟨n, hpos, h⟩
    · rw [h]; exact ⟨hcu1, hcu2⟩
    · rw [h]; exact upper_clamp_between n cu.max_page_size hpos (le_trans hcu1 hcu2)

theorem claim_C1_witness :
    ((1 : Int) ≤ DefaultLimitOffsetPagination.get_limit {} (fun _ => none) ∧
      DefaultLimitOffsetPagination.get_limit {} (fun _ => none) ≤ 100) ∧
    ((1 : Int) ≤ DefaultPageNumberPagination.get_page_size {} (fun _ => none) ∧
      DefaultPageNumberPagination.get_page_size {} (fun _ => none) ≤ 100) ∧
    ((1 : Int) ≤ DefaultCursorPagination.get_page_size {} (fun _ => none) ∧
      DefaultCursorPagination.get_page_size {} (fun _ => none) ≤ 100) :=
  claim_C1 {} {} {} (fun _ => none) (by decide) (by decide) (by decide) (by decide)
    (by decide) (by decide)

/-- C2: no invocation raises: the `try:` body of each resolver either
returns normally or raises `ValueError`, which the
`except (KeyError, ValueError)` handler catches, so each resolver
terminates normally with an integer for every request input. -/
theorem claim_C2 (lo : DefaultLimitOffsetPagination)
    (pn : DefaultPageNumberPagination) (cu : DefaultCursorPagination)
    (v : String) (query_params : String → Option String) :
    ((∃ r, lo.get_limit_try v = Except.ok r) ∨
      lo.get_limit_try v = Except.error PyExc.valueError) ∧
    ((∃ r, pn.get_page_size_try v = Except.ok r) ∨
      pn.get_page_size_try v = Except.error PyExc.valueError) ∧
    ((∃ r, cu.get_page_size_try v = Except.ok r) ∨
      cu.get_page_size_try v = Except.error PyExc.valueError) ∧
    (∃ m : Int, lo.get_limit query_params = m) ∧
    (∃ m : Int, pn.get_page_size query_params = m) ∧
    (∃ m : Int, cu.get_page_size query_params = m) := by
  refine ⟨?_, ?_, ?_, ⟨_, rfl⟩, ⟨_, rfl⟩, ⟨_, rfl⟩⟩
  · rcases get_limit_try_cases lo v with h | h | ⟨n, _, h⟩
    · exact Or.inl ⟨none, h⟩
    · exact Or.inr h
    · exact Or.inl ⟨_, h⟩
  · rcases get_page_size_try_cases pn v with h | h | ⟨n, _, h⟩
    · exact Or.inl ⟨none, h⟩
    · exact Or.inr h
    · exact Or.inl ⟨_, h⟩
  · rw [cursor_try_bridge cu v]
    rcases get_page_size_try_cases
        { page_size := cu.page_size, page_size_query_param := cu.page_size_query_param,
          max_page_size := cu.max_page_size } v with h | h | ⟨n, _, h⟩
    · exact Or.inl ⟨none, h⟩
    · exact Or.inr h
    · exact Or.inl ⟨_, h⟩

/-- C3: when the raw parameter parses to an integer `n ≤ 0`, each of the
three resolvers returns its default value, not a clamp to the minimum
bound. -/
theorem claim_C3 (lo : DefaultLimitOffsetPagination)
    (pn : DefaultPageNumberPagination) (cu : DefaultCursorPagination)
    (query_params : String → Option String) (pl pp pc v : String) (n : Int)
    (hpl : lo.limit_query_param = some pl) (hplne : pl.isEmpty = false)
    (hvl : query_params pl = some v)
    (hpp : pn.page_size_query_param = some pp) (hppne : pp.isEmpty = false)
    (hvp : query_params pp = some v)
    (hpc : cu.page_size_query_param = some pc) (hpcne : pc.isEmpty = false)
    (hvc : query_params pc = some v)
    (hn : pyParseInt v = some n) (hnp : n ≤ 0) :
    lo.get_limit query_params = lo.default_limit ∧
    pn.get_page_size query_params = pn.page_size ∧
    cu.get_page_size query_params = cu.page_size := by
  refine ⟨get_limit_default_of_nonpos lo query_params pl v n hpl hplne hvl hn hnp,
    get_page_size_default_of_nonpos pn query_params pp v n hpp hppne hvp hn hnp, ?_⟩
  rw [cursor_page_size_bridge cu query_params]
  exact get_page_size_default_of_nonpos _ query_params pc v n hpc hpcne hvc hn hnp

theorem claim_C3_witness :
    DefaultLimitOffsetPagination.get_limit {} (fun _ => some "-5") = 10 ∧
    DefaultPageNumberPagination.get_page_size {} (fun _ => some "-5") = 10 ∧
    DefaultCursorPagination.get_page_size {} (fun _ => some "-5") = 10 :=
  claim_C3 {} {} {} (fun _ => some "-5") "limit" "page_size" "page_size" "-5" (-5)
    rfl rfl rfl rfl rfl rfl rfl rfl rfl (by decide) (by decide)

/-- C4: when the query-param name is not configured, or the parameter is
absent from the request, or its value is the empty string, each resolver
returns its default value. -/
theorem claim_C4 :
    (∀ (lo : DefaultLimitOffsetPagination) (query_params : String → Option String),
      (lo.limit_query_param = none ∨
        ∃ p, lo.limit_query_param = some p ∧
          (query_params p = none ∨ query_params p = some "")) →
      lo.get_limit query_params = lo.default_limit) ∧
    (∀ (pn : DefaultPageNumberPagination) (query_params : String → Option String),
      (pn.page_size_query_param = none ∨
        ∃ p, pn.page_size_query_param = some p ∧
          (query_params p = none ∨ query_params p = some "")) →
      pn.get_page_size query_params = pn.page_size) ∧
    (∀ (cu : DefaultCursorPagination) (query_params : String → Option String),
      (cu.page_size_query_param = none ∨
        ∃ p, cu.page_size_query_param = some p ∧
          (query_params p = none ∨ query_params p = some "")) →
      cu.get_page_size query_params = cu.page_size) := by
  refine ⟨?_, ?_, ?_⟩
  · rintro lo query_params (hp | ⟨p, hp, hv | hv⟩)
    · exact get_limit_none_param lo query_params hp
    · exact get_limit_absent lo query_params p hp hv
    · exact get_limit_empty_value lo query_params p "" hp hv rfl
  · rintro pn query_params (hp | ⟨p, hp, hv | hv⟩)
    · exact get_page_size_none_param pn query_params hp
    · exact get_page_size_absent pn query_params p hp hv
    · exact get_page_size_empty_value pn query_params p "" hp hv rfl
  · rintro cu query_params (hp | ⟨p, hp, hv | hv⟩)
    · rw [cursor_page_size_bridge cu query_params]
      exact get_page_size_none_param _ query_params hp
    · rw [cursor_page_size_bridge cu query_params]
      exact get_page_size_absent _ query_params p hp hv
    · rw [cursor_page_size_bridge cu query_params]
      exact get_page_size_empty_value _ query_params p "" hp hv rfl

theorem claim_C4_witness :
    DefaultLimitOffsetPagination.get_limit
      { limit_query_param := none } (fun _ => none) = 10 ∧
    DefaultPageNumberPagination.get_page_size {} (fun _ => none) = 10 ∧
    DefaultCursorPagination.get_page_size {} (fun _ => some "") = 10 :=
  ⟨claim_C4.1 { limit_query_param := none } (fun _ => none) (Or.inl rfl),
    claim_C4.2.1 {} (fun _ => none) (Or.inr ⟨"page_size", rfl, Or.inl rfl⟩),
    claim_C4.2.2 {} (fun _ => some "") (Or.inr ⟨"page_size", rfl, Or.inr rfl⟩)⟩

/-- C5: a raw value that is purely alphabetic or fails base-10 integer
parsing (such as `abc` or the non-integer literal `0.5`) makes each of
the three resolvers return its default value. -/
theorem claim_C5 :
    (∀ (lo : DefaultLimitOffsetPagination) (query_params : String → Option String)
        (p v : String), lo.limit_query_param = some p → p.isEmpty = false →
      query_params p = some v → (pyIsAlpha v = true ∨ pyParseInt v = none) →
      lo.get_limit query_params = lo.default_limit) ∧
    (∀ (pn : DefaultPageNumberPagination) (query_params : String → Option String)
        (p v : String), pn.page_size_query_param = some p → p.isEmpty = false →
      query_params p = some v → (pyIsAlpha v = true ∨ pyParseInt v = none) →
      pn.get_page_size query_params = pn.page_size) ∧
    (∀ (cu : DefaultCursorPagination) (query_params : String → Option String)
        (p v : String), cu.page_size_query_param = some p → p.isEmpty = false →
      query_params p = some v → (pyIsAlpha v = true ∨ pyParseInt v = none) →
      cu.get_page_size query_params = cu.page_size) := by
  refine ⟨?_, ?_, ?_⟩
  · intro lo query_params p v hp hpne hv hinv
    have hbad : pyParseInt v = none := by
      rcases hinv with ha | hb
      · exact pyIsAlpha_parse_none v ha
      · exact hb
    cases hve : v.isEmpty with
    | true => exact get_limit_empty_value lo query_params p v hp hv hve
    | false => exact get_limit_default_of_invalid lo query_params p v hp hpne hv hve hbad
  · intro pn query_params p v hp hpne hv hinv
    have hbad : pyParseInt v = none := by
      rcases hinv with ha | hb
      · exact pyIsAlpha_parse_none v ha
      · exact hb
    cases hve : v.isEmpty with
    | true => exact get_page_size_empty_value pn query_params p v hp hv hve
    | false => exact get_page_size_default_of_invalid pn query_params p v hp hpne hv hve hbad
  · intro cu query_params p v hp hpne hv hinv
    have hbad : pyParseInt v = none := by
      rcases hinv with ha | hb
      · exact pyIsAlpha_parse_none v ha
      · exact hb
    rw [cursor_page_size_bridge cu query_params]
    cases hve : v.isEmpty with
    | true => exact get_page_size_empty_value _ query_params p v hp hv hve
    | false => exact get_page_size_default_of_invalid _ query_params p v hp hpne hv hve hbad

theorem claim_C5_witness :
    DefaultLimitOffsetPagination.get_limit {} (fun _ => some "abc") = 10 ∧
    DefaultPageNumberPagination.get_page_size {} (fun _ => some "0.5") = 10 ∧
    DefaultCursorPagination.get_page_size {} (fun _ => some "abc") = 10 :=
  ⟨claim_C5.1 {} (fun _ => some "abc") "limit" "abc" rfl rfl rfl (Or.inl (by decide)),
    claim_C5.2.1 {} (fun _ => some "0.5") "page_size" "0.5" rfl rfl rfl
      (Or.inr (by decide)),
    claim_C5.2.2 {} (fun _ => some "abc") "page_size" "abc" rfl rfl rfl
      (Or.inl (by decide))⟩

/-- C6: for the offset strategy, a raw value parsing to a positive
integer `n` makes `get_limit` return `min (max n min_limit) max_limit`:
in-range values pass through and too-large values clamp to the upper
bound instead of falling back to the default. -/
theorem claim_C6 (lo : DefaultLimitOffsetPagination)
    (query_params : String → Option String) (p v : String) (n : Int)
    (hp : lo.limit_query_param = some p) (hpne : p.isEmpty = false)
    (hv : query_params p = some v) (hn : pyParseInt v = some n) (hpos : 0 < n) :
    lo.get_limit query_params = min (max n lo.min_limit) lo.max_limit :=
  get_limit_of_pos lo query_params p v n hp hpne hv hn hpos

theorem claim_C6_witness :
    DefaultLimitOffsetPagination.get_limit {} (singleParam "limit" "50") = 50 ∧
    DefaultLimitOffsetPagination.get_limit {} (singleParam "limit" "9999") = 100 := by
  constructor
  · rw [claim_C6 {} (singleParam "limit" "50") "limit" "50" 50 rfl rfl (by decide)
      (by decide) (by decide)]
    decide
  · rw [claim_C6 {} (singleParam "limit" "9999") "limit" "9999" 9999 rfl rfl (by decide)
      (by decide) (by decide)]
    decide

theorem pageNumber_eq_offset_low_min (pn : DefaultPageNumberPagination)
    (query_params : String → Option String) (minv : Int) (hm : minv < 1) :
    pn.get_page_size query_params =
      DefaultLimitOffsetPagination.get_limit
        { limit_query_param := pn.page_size_query_param, min_limit := minv,
          max_limit := pn.max_page_size, default_limit := pn.page_size }
        query_params := by
  cases hp : pn.page_size_query_param with
  | none =>
    rw [get_page_size_none_param pn query_params hp,
      get_limit_none_param _ query_params rfl]
  | some p =>
    cases hpe : p.isEmpty with
    | true =>
      rw [get_page_size_empty_param pn query_params p hp hpe,
        get_limit_empty_param _ query_params p rfl hpe]
    | false =>
      cases hv : query_params p with
      | none =>
        rw [get_page_size_absent pn query_params p hp hv,
          get_limit_absent _ query_params p rfl hv]
      | some v =>
        cases hve : v.isEmpty with
        | true =>
          rw [get_page_size_empty_value pn query_params p v hp hv hve,
            get_limit_empty_value _ query_params p v rfl hv hve]
        | false =>
          rw [get_page_size_found pn query_params p v hp hpe hv hve,
            get_limit_found _ query_params p v rfl hpe hv hve]
          cases ha : pyIsAlpha v with
          | true =>
            rw [get_page_size_try_alpha pn v ha, get_limit_try_alpha _ v ha]
          | false =>
            cases hn : pyParseInt v with
            | none =>
              rw [get_page_size_try_parsefail pn v ha hn,
                get_limit_try_parsefail _ v ha hn]
            | some n =>
              by_cases hpos : 0 < n
              · rw [get_page_size_try_pos pn v n ha hn hpos,
                  get_limit_try_pos _ v n ha hn hpos]
                show min n pn.max_page_size = min (max n minv) pn.max_page_size
                have hmn : minv ≤ n := by omega
                rw [max_eq_left hmn]
              · rw [get_page_size_try_nonpos pn v n ha hn (not_lt.mp hpos),
                  get_limit_try_nonpos _ v n ha hn (not_lt.mp hpos)]

theorem cursor_eq_offset_low_min (cu : DefaultCursorPagination)
    (query_params : String → Option String) (minv : Int) (hm : minv < 1) :
    cu.get_page_size query_params =
      DefaultLimitOffsetPagination.get_limit
        { limit_query_param := cu.page_size_query_param, min_limit := minv,
          max_limit := cu.max_page_size, default_limit := cu.page_size }
        query_params := by
  rw [cursor_page_size_bridge cu query_params]
  exact pageNumber_eq_offset_low_min _ query_params minv hm

/-- C7: the page-number and cursor strategies apply only the upper bound:
inserting any hypothetical `minValue` below 1 into the offset strategy's
full clamp (with matching configuration) reproduces their behaviour
exactly, while the offset strategy's own result does depend on
`min_limit`. -/
theorem claim_C7 :
    (∀ (pn : DefaultPageNumberPagination) (query_params : String → Option String)
        (minv : Int), minv < 1 →
      pn.get_page_size query_params =
        DefaultLimitOffsetPagination.get_limit
          { limit_query_param := pn.page_size_query_param, min_limit := minv,
            max_limit := pn.max_page_size, default_limit := pn.page_size }
          query_params) ∧
    (∀ (cu : DefaultCursorPagination) (query_params : String → Option String)
        (minv : Int), minv < 1 →
      cu.get_page_size query_params =
        DefaultLimitOffsetPagination.get_limit
          { limit_query_param := cu.page_size_query_param, min_limit := minv,
            max_limit := cu.max_page_size, default_limit := cu.page_size }
          query_params) ∧
    (∃ (lo1 lo2 : DefaultLimitOffsetPagination)
        (query_params : String → Option String),
      lo1.limit_query_param = lo2.limit_query_param ∧
      lo1.max_limit = lo2.max_limit ∧ lo1.default_limit = lo2.default_limit ∧
      lo1.min_limit ≠ lo2.min_limit ∧
      lo1.get_limit query_params ≠ lo2.get_limit query_params) := by
  refine ⟨fun pn query_params minv hm =>
      pageNumber_eq_offset_low_min pn query_params minv hm,
    fun cu query_params minv hm => cursor_eq_offset_low_min cu query_params minv hm,
    ⟨{}, { min_limit := 50 }, singleParam "limit" "5", rfl, rfl, rfl,
      by decide, by decide⟩⟩

theorem claim_C7_witness :
    DefaultPageNumberPagination.get_page_size {} (singleParam "page_size" "5") =
      DefaultLimitOffsetPagination.get_limit
        { limit_query_param := some "page_size", min_limit := 0,
          max_limit := 100, default_limit := 10 } (singleParam "page_size" "5") ∧
    DefaultCursorPagination.get_page_size {} (singleParam "page_size" "5") =
      DefaultLimitOffsetPagination.get_limit
        { limit_query_param := some "page_size", min_limit := 0,
          max_limit := 100, default_limit := 10 } (singleParam "page_size" "5") :=
  ⟨claim_C7.1 {} (singleParam "page_size" "5") 0 (by decide),
    claim_C7.2.1 {} (singleParam "page_size" "5") 0 (by decide)⟩

/-- C8 (counterexample to the claim as stated): a 30-digit numeric
literal is not substituted with the default value; the offset resolver
returns its upper bound 100 instead of its default 10. -/
theorem claim_C8_counterexample :
    DefaultLimitOffsetPagination.get_limit {}
      (singleParam "limit" "100000000000000000000000000000") = 100 ∧
    (100 : Int) ≠ 10 := by
  constructor
  · decide
  · decide

/-- C8 (amended): Python 3 integers are unbounded, so a 30-digit numeric
literal parses successfully to a positive integer and is treated as a
valid override: each resolver clamps it to its upper bound rather than
substituting the default value. -/
theorem claim_C8 :
    pyParseInt "100000000000000000000000000000" = some (10 ^ 29 : Int) ∧
    DefaultLimitOffsetPagination.get_limit {}
      (singleParam "limit" "100000000000000000000000000000") = 100 ∧
    DefaultPageNumberPagination.get_page_size {}
      (singleParam "page_size" "100000000000000000000000000000") = 100 ∧
    DefaultCursorPagination.get_page_size {}
      (singleParam "page_size" "100000000000000000000000000000") = 100 := by
  refine ⟨by decide, by decide, by decide, by decide⟩

/-- C9: `DefaultPageNumberPagination.get_page_size` and
`DefaultCursorPagination.get_page_size` are extensionally equal: for
every request and identical configuration of `page_size`,
`page_size_query_param` and `max_page_size`, they return the same
integer. -/
theorem claim_C9 (page_size : Int) (page_size_query_param : Option String)
    (max_page_size : Int) (ordering : String)
    (query_params : String → Option String) :
    DefaultPageNumberPagination.get_page_size
      { page_size := page_size, page_size_query_param := page_size_query_param,
        max_page_size := max_page_size } query_params =
    DefaultCursorPagination.get_page_size
      { page_size := page_size, page_size_query_param := page_size_query_param,
        max_page_size := max_page_size, ordering := ordering } query_params := rfl

/-- C10: numeric strings accepted by Python's `int` beyond plain digit
runs — surrounding whitespace, a leading `+` sign, or underscore digit
separators — parse to 42 and are treated as valid positive overrides,
clamped into range rather than rejected to the default. -/
theorem claim_C10 :
    (pyParseInt " 42 " = some 42 ∧ pyParseInt "+42" = some 42 ∧
      pyParseInt "4_2" = some 42) ∧
    (∀ (lo : DefaultLimitOffsetPagination) (query_params : String → Option String)
        (p v : String), lo.limit_query_param = some p → p.isEmpty = false →
      query_params p = some v → (v = " 42 " ∨ v = "+42" ∨ v = "4_2") →
      lo.get_limit query_params = min (max 42 lo.min_limit) lo.max_limit) ∧
    (∀ (pn : DefaultPageNumberPagination) (query_params : String → Option String)
        (p v : String), pn.page_size_query_param = some p → p.isEmpty = false →
      query_params p = some v → (v = " 42 " ∨ v = "+42" ∨ v = "4_2") →
      pn.get_page_size query_params = min 42 pn.max_page_size) ∧
    (∀ (cu : DefaultCursorPagination) (query_params : String → Option String)
        (p v : String), cu.page_size_query_param = some p → p.isEmpty = false →
      query_params p = some v → (v = " 42 " ∨ v = "+42" ∨ v = "4_2") →
      cu.get_page_size query_params = min 42 cu.max_page_size) := by
  refine ⟨⟨by decide, by decide, by decide⟩, ?_, ?_, ?_⟩
  · rintro lo query_params p v hp hpne hv (rfl | rfl | rfl)
    · exact get_limit_of_pos lo query_params p _ 42 hp hpne hv (by decide) (by decide)
    · exact get_limit_of_pos lo query_params p _ 42 hp hpne hv (by decide) (by decide)
    · exact get_limit_of_pos lo query_params p _ 42 hp hpne hv (by decide) (by decide)
  · rintro pn query_params p v hp hpne hv (rfl | rfl | rfl)
    · exact get_page_size_of_pos pn query_params p _ 42 hp hpne hv (by decide) (by decide)
    · exact get_page_size_of_pos pn query_params p _ 42 hp hpne hv (by decide) (by decide)
    · exact get_page_size_of_pos pn query_params p _ 42 hp hpne hv (by decide) (by decide)
  · rintro cu query_params p v hp hpne hv hvv
    rw [cursor_page_size_bridge cu query_params]
    rcases hvv with rfl | rfl | rfl
    · exact get_page_size_of_pos _ query_params p _ 42 hp hpne hv (by decide) (by decide)
    · exact get_page_size_of_pos _ query_params p _ 42 hp hpne hv (by decide) (by decide)
    · exact get_page_size_of_pos _ query_params p _ 42 hp hpne hv (by decide) (by decide)

theorem claim_C10_witness :
    DefaultLimitOffsetPagination.get_limit {} (singleParam "limit" " 42 ") = 42 ∧
    DefaultPageNumberPagination.get_page_size {} (singleParam "page_size" "+42") = 42 ∧
    DefaultCursorPagination.get_page_size {} (singleParam "page_size" "4_2") = 42 := by
  refine ⟨?_, ?_, ?_⟩
  · rw [claim_C10.2.1 {} (singleParam "limit" " 42 ") "limit" " 42 " rfl rfl (by decide)
      (Or.inl rfl)]
    decide
  · rw [claim_C10.2.2.1 {} (singleParam "page_size" "+42") "page_size" "+42" rfl rfl
      (by decide) (Or.inr (Or.inl rfl))]
    decide
  · rw [claim_C10.2.2.2 {} (singleParam "page_size" "4_2") "page_size" "4_2" rfl rfl
      (by decide) (Or.inr (Or.inr rfl))]
    decide
